import Mathlib

/-!
Verification development for the appointment booking system:
a shallow embedding of the data model (models.py) and the
serializer-level validation logic (serializers.py), with theorems about
slot-conflict validation, booking, lifecycle and user activation.

Conventions of the embedding:
* wall-clock times are minutes after midnight (Python datetime.time is
  totally ordered chronologically, which this ordering mirrors);
* calendar dates carry their proleptic Gregorian ordinal, exactly the
  value of Python date.toordinal (ordinal 1 is 0001-01-01, a Monday);
* Django querysets over in-memory lists: filter becomes List.filter,
  exists becomes List.any;
* raising serializers.ValidationError becomes returning Except.error.
-/

namespace AppointmentBooking

/-- Wall-clock time of day, in minutes after midnight. -/
abbrev TimeOfDay := Nat

/-- A calendar date, represented by its proleptic Gregorian ordinal as in
Python date.toordinal. Ordinal 1 denotes 0001-01-01, which is a Monday. -/
structure PyDate where
  ordinal : Nat
deriving DecidableEq, Repr

/-- Python computation date.weekday, used at serializers.py:352: returns 0
for Monday through 6 for Sunday. Since ordinal 1 is a Monday, the value is
(ordinal + 6) mod 7. -/
def pythonWeekday (d : PyDate) : Nat := (d.ordinal + 6) % 7

/-- The day names in the order Python date.weekday numbers them:
index 0 is Monday, index 6 is Sunday. -/
def pythonWeekdayNames : List String :=
  ["Monday", "Tuesday", "Wednesday", "Thursday", "Friday", "Saturday", "Sunday"]

/-- Name of the calendar day that Python date.weekday denotes by `w`. -/
def pythonWeekdayName (w : Nat) : Option String := pythonWeekdayNames.get? w

/-- Comparison of combined (date, time) instants, as Python datetime
comparison does chronologically (serializers.py:345). -/
def dtLe (a b : PyDate × TimeOfDay) : Bool :=
  a.1.ordinal < b.1.ordinal || (a.1.ordinal == b.1.ordinal && a.2 ≤ b.2)

/-- models.py:170-178, TimeSlot.WEEKDAY_CHOICES, verbatim pairs of
integer value and human-readable label. -/
def WEEKDAY_CHOICES : List (Nat × String) :=
  [(0, "Friday"), (1, "Saturday"), (2, "Sunday"), (3, "Monday"),
   (4, "Wednesday"), (5, "Thursday"), (6, "Sunday")]

/-- The label WEEKDAY_CHOICES assigns to an integer weekday value. -/
def weekdayChoiceLabel (w : Nat) : Option String :=
  (WEEKDAY_CHOICES.find? (fun p => p.1 == w)).map Prod.snd

/-- models.py:191-196, Appointment.STATUS_CHOICES values. -/
def STATUS_CHOICES : List String :=
  ["pending", "confirmed", "cancelled", "completed"]

/-- models.py:93-129, User: the fields the booking subsystem reads.
consultation_fee is a two-decimal-place DecimalField; it is embedded as an
integer count of hundredths. -/
structure User where
  id : Nat
  user_type : String
  consultation_fee : Int
  is_active : Bool
deriving DecidableEq, Repr

/-- models.py:153-166, DoctorProfile: a profile owned by a User. -/
structure DoctorProfile where
  id : Nat
  user : User
  is_available : Bool
deriving DecidableEq, Repr

/-- models.py:169-187, TimeSlot: one recurring weekly availability window.

The final field needs a caveat: models.py declares only doctor, weekday,
start_time and end_time on TimeSlot, yet serializers.py:359 filters time
slots on is_available=True and the raw SQL in
repository/doctor_profile.py:99 reads ts.is_available from the timeslot
table. The embedding therefore carries the is_available flag those readers
require; its absence from the models.py revision under review is recorded
separately in timeSlotModelFieldNames and settled by claim C2. -/
structure TimeSlot where
  id : Nat
  doctor_id : Nat
  weekday : Nat
  start_time : TimeOfDay
  end_time : TimeOfDay
  is_available : Bool
deriving DecidableEq, Repr

/-- models.py:190-217, Appointment. -/
structure Appointment where
  id : Nat
  patient_id : Nat
  doctor_id : Nat
  appointment_date : PyDate
  appointment_time : TimeOfDay
  notes : String
  status : String
  consultation_fee : Option Int
deriving DecidableEq, Repr

/-- models.py:226-243, AppointmentStatusLog: one row per status change. -/
structure AppointmentStatusLog where
  appointment_id : Nat
  previous_status : String
  new_status : String
  changed_by : Nat
  reason : String
  timestamp : Nat
deriving DecidableEq, Repr

/-- The concrete field names the TimeSlot model class declares
(models.py:169-183 plus the abstract Time base, models.py:29-32). -/
def timeSlotModelFieldNames : List String :=
  ["created_at", "created_by", "updated_at", "updated_by",
   "doctor", "weekday", "start_time", "end_time"]

/-- The TimeSlot field names the availability queryset of
serializers.py:355-360 filters on (the base names of its keyword
arguments weekday, start_time__lte, end_time__gt, is_available). -/
def availabilityFilterFieldNames : List String :=
  ["weekday", "start_time", "end_time", "is_available"]

/-- The attribute name serializers.py:355 reads on the doctor profile to
reach its time slots. -/
def serializerTimeSlotAccessor : String := "time_slots"

/-- The reverse accessor Django actually generates for the foreign key
TimeSlot.doctor (models.py:180), which sets no related_name: the
lower-cased model name suffixed with _set. -/
def djangoTimeSlotReverseAccessor : String := "timeslot_set"

/-- The attribute payload of a weekly-slot submission after field
deserialization (serializers.py:255-294). -/
structure TimeSlotAttrs where
  doctor_id : Nat
  weekday : Nat
  start_time : TimeOfDay
  end_time : TimeOfDay
deriving DecidableEq, Repr

/-- The two rejection kinds of TimeSlotSerializer.validate
(serializers.py:272-292): start at or after end, and overlap with an
existing slot of the same doctor and weekday. -/
inductive SlotError where
  | invalidRange
  | overlapConflict
deriving DecidableEq, Repr

namespace TimeSlotSerializer

/-- The queryset filter of serializers.py:278-287: same doctor, same
weekday, existing start before new end, existing end after new start,
excluding the instance itself when updating. -/
def overlapsb (attrs : TimeSlotAttrs) (instancePk : Option Nat) (s : TimeSlot) : Bool :=
  s.doctor_id == attrs.doctor_id && s.weekday == attrs.weekday &&
  decide (s.start_time < attrs.end_time) && decide (s.end_time > attrs.start_time) &&
  (match instancePk with
   | some pk => s.id != pk
   | none => true)

/-- serializers.py:267-294, TimeSlotSerializer.validate: time order first,
then the overlap scan; acceptance returns the attributes unchanged. -/
def validate (existing : List TimeSlot) (attrs : TimeSlotAttrs)
    (instancePk : Option Nat) : Except SlotError TimeSlotAttrs :=
  if attrs.start_time ≥ attrs.end_time then .error .invalidRange
  else if existing.any (overlapsb attrs instancePk) then .error .overlapConflict
  else .ok attrs

end TimeSlotSerializer

/-- The rejection kinds arising on the appointment create and update
paths (serializers.py:304-403 and the model constraint models.py:217). -/
inductive BookingError where
  | pastDate
  | outsideBusinessHours
  | pastDateTime
  | doctorUnavailable
  | slotAlreadyBooked
  | uniqueTogetherViolation
  | immutableTerminalState
  | doctorReassignmentForbidden
deriving DecidableEq, Repr

/-- serializers.py:330, strptime of 09:00, as minutes. -/
def businessOpen : TimeOfDay := 9 * 60

/-- serializers.py:331, strptime of 17:00, as minutes. -/
def businessClose : TimeOfDay := 17 * 60

/-- A booking request after field deserialization. The two requested_
fields record what the client sent for status and consultation_fee; the
serializer marks both read only (serializers.py:315) and therefore drops
them before create runs. -/
structure AppointmentRequest where
  patient_id : Nat
  doctor : DoctorProfile
  appointment_date : PyDate
  appointment_time : TimeOfDay
  notes : String
  requested_status : Option String
  requested_consultation_fee : Option Int
deriving DecidableEq, Repr

/-- The persistent store the booking path reads and writes: the weekly
slots and the persisted appointments. -/
structure Store where
  timeSlots : List TimeSlot
  appointments : List Appointment
deriving DecidableEq, Repr

namespace AppointmentSerializer

/-- serializers.py:321-325, validate_appointment_date: reject a date
strictly before the current date. -/
def validate_appointment_date (today : PyDate) (value : PyDate) :
    Except BookingError PyDate :=
  if value.ordinal < today.ordinal then .error .pastDate else .ok value

/-- serializers.py:327-336, validate_appointment_time: reject a time
strictly before 09:00 or strictly after 17:00. This field-level check
reads nothing but the submitted time. -/
def validate_appointment_time (value : TimeOfDay) : Except BookingError TimeOfDay :=
  if value < businessOpen || value > businessClose then .error .outsideBusinessHours
  else .ok value

/-- The availability queryset condition of serializers.py:355-360: a slot
of this doctor, on the weekday derived from the appointment date, with
start_time at or before the appointment time, end_time strictly after it,
and the is_available flag set. -/
def availableSlotMatches (req : AppointmentRequest) (ts : TimeSlot) : Bool :=
  ts.doctor_id == req.doctor.id &&
  ts.weekday == pythonWeekday req.appointment_date &&
  decide (ts.start_time ≤ req.appointment_time) &&
  decide (ts.end_time > req.appointment_time) &&
  ts.is_available

/-- The conflict queryset condition of serializers.py:364-373: an
appointment of the same doctor, date and time whose status is pending or
confirmed, excluding the instance itself when updating. -/
def conflictb (req : AppointmentRequest) (instancePk : Option Nat)
    (a : Appointment) : Bool :=
  a.doctor_id == req.doctor.id &&
  a.appointment_date == req.appointment_date &&
  a.appointment_time == req.appointment_time &&
  (a.status == "pending" || a.status == "confirmed") &&
  (match instancePk with
   | some pk => a.id != pk
   | none => true)

/-- serializers.py:338-376, AppointmentSerializer.validate: the combined
instant must be strictly in the future, the doctor must have a matching
available slot, and no active appointment may occupy the key. -/
def validateCross (now : PyDate × TimeOfDay) (s : Store) (instancePk : Option Nat)
    (req : AppointmentRequest) : Except BookingError AppointmentRequest :=
  if dtLe (req.appointment_date, req.appointment_time) now then .error .pastDateTime
  else if !(s.timeSlots.any (availableSlotMatches req)) then .error .doctorUnavailable
  else if s.appointments.any (conflictb req instancePk) then .error .slotAlreadyBooked
  else .ok req

/-- The whole validation pass of the serializer in framework order:
field validators for appointment_date and appointment_time, then the
cross-field validate. -/
def run_validation (today : PyDate) (now : PyDate × TimeOfDay) (s : Store)
    (instancePk : Option Nat) (req : AppointmentRequest) :
    Except BookingError AppointmentRequest := do
  let _ ← validate_appointment_date today req.appointment_date
  let _ ← validate_appointment_time req.appointment_time
  validateCross now s instancePk req

/-- The validated payload handed to create. Because status and
consultation_fee sit in Meta.read_only_fields (serializers.py:315), the
payload carries none for both, whatever the client sent. -/
structure ValidatedData where
  patient_id : Nat
  doctor : DoctorProfile
  appointment_date : PyDate
  appointment_time : TimeOfDay
  notes : String
  status : Option String
  consultation_fee : Option Int
deriving DecidableEq, Repr

/-- Builds the validated payload from a request, dropping the read-only
status and consultation_fee inputs (serializers.py:315). -/
def toValidatedData (req : AppointmentRequest) : ValidatedData :=
  { patient_id := req.patient_id, doctor := req.doctor,
    appointment_date := req.appointment_date,
    appointment_time := req.appointment_time,
    notes := req.notes, status := none, consultation_fee := none }

/-- serializers.py:378-388, AppointmentSerializer.create: setdefault of
status to pending and of consultation_fee to the fee on the user record
of the doctor. -/
def create (vd : ValidatedData) (newId : Nat) : Appointment :=
  { id := newId, patient_id := vd.patient_id, doctor_id := vd.doctor.id,
    appointment_date := vd.appointment_date,
    appointment_time := vd.appointment_time,
    notes := vd.notes,
    status := vd.status.getD "pending",
    consultation_fee := some (vd.consultation_fee.getD vd.doctor.user.consultation_fee) }

/-- The change set of an update request: absent fields stay untouched. -/
structure UpdateData where
  doctor : Option DoctorProfile
  appointment_date : Option PyDate
  appointment_time : Option TimeOfDay
  notes : Option String
deriving DecidableEq, Repr

/-- Field application an accepted update performs on the instance. -/
def applyUpdate (inst : Appointment) (vd : UpdateData) : Appointment :=
  { inst with
    doctor_id := (vd.doctor.map DoctorProfile.id).getD inst.doctor_id,
    appointment_date := vd.appointment_date.getD inst.appointment_date,
    appointment_time := vd.appointment_time.getD inst.appointment_time,
    notes := vd.notes.getD inst.notes }

/-- serializers.py:390-403, AppointmentSerializer.update: a completed or
cancelled instance rejects every change; a change set naming a different
doctor is rejected; otherwise the changes are applied. -/
def update (inst : Appointment) (vd : UpdateData) : Except BookingError Appointment :=
  if inst.status == "completed" || inst.status == "cancelled" then
    .error .immutableTerminalState
  else
    match vd.doctor with
    | some d =>
        if d.id != inst.doctor_id then .error .doctorReassignmentForbidden
        else .ok (applyUpdate inst vd)
    | none => .ok (applyUpdate inst vd)

/-- The appointment an update request leaves behind: the updated record
on acceptance, the untouched instance on rejection. -/
def updateResulting (inst : Appointment) (vd : UpdateData) : Appointment :=
  match update inst vd with
  | .ok a => a
  | .error _ => inst

end AppointmentSerializer

/-- Key clash under the model constraint models.py:217: unique_together
on doctor, appointment_date and appointment_time, with no status scoping. -/
def uniqueTogetherClash (a b : Appointment) : Bool :=
  a.doctor_id == b.doctor_id && a.appointment_date == b.appointment_date &&
  a.appointment_time == b.appointment_time

/-- Persisting a new appointment row: the database (and the set-uniqueness
validation the model-backed serializer derives from the same Meta
declaration) refuses a second row sharing the key of any existing row,
whatever status that row has. -/
def insertAppointment (s : Store) (a : Appointment) : Except BookingError Store :=
  if s.appointments.any (uniqueTogetherClash a) then .error .uniqueTogetherViolation
  else .ok { s with appointments := s.appointments ++ [a] }

/-- The whole create endpoint (views.py:1462-1489): run the serializer
validation, build the record, persist it. -/
def book (today : PyDate) (now : PyDate × TimeOfDay) (s : Store)
    (req : AppointmentRequest) (newId : Nat) : Except BookingError Store := do
  let r ← AppointmentSerializer.run_validation today now s none req
  insertAppointment s (AppointmentSerializer.create (AppointmentSerializer.toValidatedData r) newId)

/-- One validation pass with the store threaded through explicitly.
serializers.py:321-376 issues only read queries (filter and exists), so
the pass hands back the store it was given; the pair records the decision
and the store left behind. -/
def validationStep (today : PyDate) (now : PyDate × TimeOfDay) (s : Store)
    (req : AppointmentRequest) : Except BookingError AppointmentRequest × Store :=
  (AppointmentSerializer.run_validation today now s none req, s)

/-- The attribute payload of a user create or update after field
deserialization (serializers.py:88-146). Field values a request may omit
are options; Python treats an absent key and None alike. -/
structure UserAttrs where
  user_type : String
  license_number : Option String
  experience_years : Option String
  consultation_fee : Option Int
  password : Option String
  phone : Option String
  is_active : Bool
deriving DecidableEq, Repr

/-- Python truthiness of an optional text attribute: absent, None and the
empty string are falsy. -/
def truthyText : Option String → Bool
  | none => false
  | some s => !s.isEmpty

/-- Python truthiness of the optional decimal consultation_fee: absent,
None and zero are falsy. -/
def truthyFee : Option Int → Bool
  | none => false
  | some n => n != 0

/-- utils/utils.py:35, the characters counted as special. -/
def specialCharacters : String := "!@#$%^&*()_+-=[]\x7b\x7d|;:,.<>?/"

/-- utils/utils.py:11-39, validate_password_strength: the list of failed
requirements, in source order; the Python function raises exactly when
this list is nonempty. -/
def validate_password_strength (password : String) : List String :=
  (if password.length < 8 then
    ["Password must be at least 8 characters long."] else []) ++
  (if password.toList.any Char.isUpper then [] else
    ["Password must contain at least one uppercase letter."]) ++
  (if password.toList.any Char.isLower then [] else
    ["Password must contain at least one lowercase letter."]) ++
  (if password.toList.any Char.isDigit then [] else
    ["Password must contain at least one digit."]) ++
  (if password.toList.any (fun c => specialCharacters.toList.contains c) then [] else
    ["Password must contain at least one special character."])

/-- Python str.strip: drop whitespace from both ends, written over the
character list so that it reduces structurally. -/
def pyStrip (s : String) : String :=
  String.mk (((s.data.dropWhile Char.isWhitespace).reverse.dropWhile
    Char.isWhitespace).reverse)

/-- utils/api_utils.py:279-295, format_mobile_number: strip whitespace and
put the country code in front unless already present; startswith is the
character-list test. -/
def format_mobile_number (mobile : String) : String :=
  let m := pyStrip mobile
  if "+88".data.isPrefixOf m.data then m else "+88" ++ pyStrip m

namespace UserSerializer

/-- The keys of the error dictionary serializers.py:129-133 builds for a
doctor: every required field whose value is falsy, in source order. -/
def doctorRequiredMissing (a : UserAttrs) : List String :=
  (if truthyText a.license_number then [] else ["license_number"]) ++
  (if truthyText a.experience_years then [] else ["experience_years"]) ++
  (if truthyFee a.consultation_fee then [] else ["consultation_fee"])

/-- serializers.py:143-144: reformat the phone attribute when present. -/
def formatPhone (a : UserAttrs) : UserAttrs :=
  match a.phone with
  | some ph => { a with phone := some (format_mobile_number ph) }
  | none => a

/-- The checks serializers.py:123-146 runs after forcing is_active: the
doctor required-field scan, the password strength gate, the phone
formatting. The error payload keeps the offending keys and messages; note
the source calls validate_password_strength for its raise, so the branch
fires exactly when the requirement list is nonempty. -/
def checksAfterActive (a : UserAttrs) : Except (List String) UserAttrs :=
  if a.user_type == "DOCTOR" && !(doctorRequiredMissing a).isEmpty then
    .error (doctorRequiredMissing a)
  else
    match a.password with
    | some p =>
        if !(validate_password_strength p).isEmpty then
          .error (validate_password_strength p)
        else .ok (formatPhone a)
    | none => .ok (formatPhone a)

/-- serializers.py:109-146, UserSerializer.validate: the first effect on
the attributes is the unconditional assignment of is_active to True
(serializers.py:121); the remaining checks then run on that payload. The
same method runs on the create and on the update path. -/
def validate (attrs : UserAttrs) : Except (List String) UserAttrs :=
  checksAfterActive { attrs with is_active := true }

end UserSerializer

/-- Modelled from the spec: section 4.3 AppointmentLifecycle. The
repository declares the audit model AppointmentStatusLog
(models.py:226-243) and keeps status read only on the appointment
serializer (serializers.py:315), but ships no code performing a status
transition; the legal edges below are the ones the spec text names:
pending to confirmed or cancelled, confirmed to completed or cancelled,
nothing out of completed or cancelled. -/
def allowedTransition (src tgt : String) : Bool :=
  if src == "pending" then tgt == "confirmed" || tgt == "cancelled"
  else if src == "confirmed" then tgt == "completed" || tgt == "cancelled"
  else false

/-- The rejection a transition attempt along an illegal edge receives. -/
inductive TransitionError where
  | illegalTransition
deriving DecidableEq, Repr

/-- Modelled from the spec: section 4.3. A transition validates the edge,
appends exactly one AppointmentStatusLog row recording previous status,
new status, actor, optional reason and timestamp, then commits the new
status; an illegal edge changes nothing. -/
def applyTransition (a : Appointment) (target : String) (actor : Nat)
    (reason : String) (t : Nat) (logs : List AppointmentStatusLog) :
    Except TransitionError (Appointment × List AppointmentStatusLog) :=
  if allowedTransition a.status target then
    .ok ({ a with status := target },
         logs ++ [{ appointment_id := a.id, previous_status := a.status,
                    new_status := target, changed_by := actor,
                    reason := reason, timestamp := t }])
  else .error .illegalTransition

/-! ## Concrete fixtures used by the closed theorems and the witnesses.

The running scenario uses the date of ordinal 1, a Monday under the
Python numbering (weekday 0), with the current instant at midnight of
that same day, inside a slot from 09:00 to 12:00. -/

/-- A doctor fixture whose user record carries fee 500.00 (50000 hundredths). -/
def c1Doctor : DoctorProfile :=
  { id := 1,
    user := { id := 10, user_type := "DOCTOR", consultation_fee := 50000,
              is_active := true },
    is_available := true }

/-- An available weekly slot of that doctor: weekday 0, 09:00 to 12:00. -/
def c1Slot : TimeSlot :=
  { id := 1, doctor_id := 1, weekday := 0, start_time := 540, end_time := 720,
    is_available := true }

/-- A cancelled appointment occupying the key (doctor 1, ordinal 1, 10:00). -/
def c1Cancelled : Appointment :=
  { id := 1, patient_id := 7, doctor_id := 1, appointment_date := ⟨1⟩,
    appointment_time := 600, notes := "", status := "cancelled",
    consultation_fee := some 50000 }

/-- The store of the C1 scenario: the slot plus the cancelled appointment. -/
def c1Store : Store := { timeSlots := [c1Slot], appointments := [c1Cancelled] }

/-- A fresh booking request for the very key the cancelled appointment holds. -/
def c1Request : AppointmentRequest :=
  { patient_id := 8, doctor := c1Doctor, appointment_date := ⟨1⟩,
    appointment_time := 600, notes := "", requested_status := none,
    requested_consultation_fee := none }

/-- Claim C1. Among persisted appointments the key (doctor_id,
appointment_date, appointment_time) is indeed unique among pending or
confirmed rows, but only because models.py:217 declares unique_together
over the bare key with no status scoping, and that same constraint
refutes the second half of the claim: a booking request whose key
collides only with a cancelled appointment passes every serializer check
of serializers.py:321-376 (the conflict scan looks at pending and
confirmed rows only) and is then refused at persistence, so the request
is not accepted. The theorem evaluates the failing input: the only
occupant of the key is cancelled, the validation pass accepts, the create
endpoint still rejects with the uniqueness violation. -/
theorem claim_C1 :
    c1Cancelled.status = "cancelled"
    ∧ c1Store.appointments = [c1Cancelled]
    ∧ AppointmentSerializer.run_validation ⟨1⟩ (⟨1⟩, 0) c1Store none c1Request
        = .ok c1Request
    ∧ book ⟨1⟩ (⟨1⟩, 0) c1Store c1Request 2 = .error .uniqueTogetherViolation :=
  ⟨rfl, rfl, rfl, rfl⟩

/-- A request of the C2 scenario, identical shape with no occupant at all. -/
def c2Store : Store := { timeSlots := [c1Slot], appointments := [] }

/-- The C2 booking request at Monday 10:00 inside the 09:00 to 12:00 slot. -/
def c2Request : AppointmentRequest :=
  { patient_id := 8, doctor := c1Doctor, appointment_date := ⟨1⟩,
    appointment_time := 600, notes := "", requested_status := none,
    requested_consultation_fee := none }

/-- Claim C2. The availability check serializers.py:355-360 is written
over two names the model layer never defines: it reaches the slots
through the attribute time_slots although the foreign key
TimeSlot.doctor (models.py:180) sets no related_name, so Django generates
timeslot_set, and it filters on is_available although models.py:169-183
declares no such field on TimeSlot. Executing the check therefore raises
an attribute error instead of performing the membership test the claim
describes. The theorem records the divergence at a failing input that
passes the date and time gates: the filter names a field outside the
declared TimeSlot fields, the accessor name differs from the generated
one, and under the evident reading of the queryset (the embedding with
the flag the query requires) the doctor does have a matching slot, so the
claim would accept. -/
theorem claim_C2 :
    "is_available" ∈ availabilityFilterFieldNames
    ∧ "is_available" ∉ timeSlotModelFieldNames
    ∧ serializerTimeSlotAccessor ≠ djangoTimeSlotReverseAccessor
    ∧ AppointmentSerializer.validate_appointment_time 600 = .ok 600
    ∧ c2Store.timeSlots.any (AppointmentSerializer.availableSlotMatches c2Request)
        = true := by
  refine ⟨?_, ?_, ?_, rfl, rfl⟩ <;> decide

/-- Claim C3. The weekday enumeration of models.py:170-178 does not
consist of 7 distinct symbolic day values: the label Sunday appears for
both 2 and 6 and no entry is labelled Tuesday. Its integer keys are the
7 values 0 to 6, the same integer domain date.weekday produces, but the
day a key denotes disagrees with the day the booking validation derives:
date.weekday yields 0 exactly on Mondays (ordinal 1 is a Monday) while
WEEKDAY_CHOICES labels 0 as Friday. -/
theorem claim_C3 :
    weekdayChoiceLabel 2 = weekdayChoiceLabel 6
    ∧ ¬ (WEEKDAY_CHOICES.map Prod.snd).Nodup
    ∧ "Tuesday" ∉ WEEKDAY_CHOICES.map Prod.snd
    ∧ WEEKDAY_CHOICES.map Prod.fst = [0, 1, 2, 3, 4, 5, 6]
    ∧ weekdayChoiceLabel 0 = some "Friday"
    ∧ pythonWeekdayName 0 = some "Monday"
    ∧ pythonWeekday ⟨1⟩ = 0 := by
  refine ⟨rfl, ?_, ?_, rfl, rfl, rfl, rfl⟩ <;> decide

/-- No edge leaves a terminal status: helper for the lifecycle claim. -/
theorem allowedTransition_of_terminal (s t : String)
    (h : s = "completed" ∨ s = "cancelled") : allowedTransition s t = false := by
  rcases h with h | h <;> subst h <;> rfl

/-- Claim C4. Under the spec-modelled lifecycle: a completed or cancelled
appointment rejects every transition attempt with IllegalTransition, and
every performed transition commits exactly the target status and appends
exactly one AppointmentStatusLog row recording previous status, new
status, actor, reason and timestamp; the transition function is the only
mutator of status in this development. -/
theorem claim_C4 :
    ∀ (a : Appointment) (target : String) (actor : Nat) (reason : String)
      (t : Nat) (logs : List AppointmentStatusLog),
    ((a.status = "completed" ∨ a.status = "cancelled") →
      applyTransition a target actor reason t logs = .error .illegalTransition)
    ∧ (∀ a2 logs2,
        applyTransition a target actor reason t logs = .ok (a2, logs2) →
          a2 = { a with status := target }
          ∧ logs2 = logs ++
              [{ appointment_id := a.id, previous_status := a.status,
                 new_status := target, changed_by := actor,
                 reason := reason, timestamp := t }]) := by
  intro a target actor reason t logs
  constructor
  · intro h
    unfold applyTransition
    rw [allowedTransition_of_terminal a.status target h]
    rfl
  · intro a2 logs2 h
    unfold applyTransition at h
    by_cases hb : allowedTransition a.status target
    · rw [if_pos hb] at h
      simp only [Except.ok.injEq, Prod.mk.injEq] at h
      exact ⟨h.1.symm, h.2.symm⟩
    · rw [if_neg hb] at h
      exact absurd h (by simp)

/-- A pending appointment fixture for the lifecycle witness. -/
def c4Pending : Appointment :=
  { id := 3, patient_id := 7, doctor_id := 1, appointment_date := ⟨1⟩,
    appointment_time := 600, notes := "", status := "pending",
    consultation_fee := some 50000 }

/-- A completed appointment fixture for the lifecycle witness. -/
def c4Completed : Appointment := { c4Pending with id := 4, status := "completed" }

/-- The appointment a confirm of c4Pending commits. -/
def c4After : Appointment := { c4Pending with status := "confirmed" }

/-- The single log row a confirm of c4Pending appends. -/
def c4Log : AppointmentStatusLog :=
  { appointment_id := 3, previous_status := "pending",
    new_status := "confirmed", changed_by := 9, reason := "ok by phone",
    timestamp := 100 }

/-- Witness for claim C4: the completed fixture rejects a confirm attempt,
and the performed pending-to-confirmed transition commits the target
status and appends the one expected row. -/
theorem claim_C4_witness :
    applyTransition c4Completed "confirmed" 9 "ok by phone" 100 []
      = .error .illegalTransition
    ∧ c4After = { c4Pending with status := "confirmed" } :=
  ⟨(claim_C4 c4Completed "confirmed" 9 "ok by phone" 100 []).1 (Or.inl rfl),
   ((claim_C4 c4Pending "confirmed" 9 "ok by phone" 100 []).2
      c4After [c4Log] rfl).1⟩

/-- The overlap scan over a slot list agrees with the half-open interval
condition of the claim: helper translating the queryset filter. -/
theorem timeSlot_any_overlap_iff (existing : List TimeSlot) (attrs : TimeSlotAttrs) :
    existing.any (TimeSlotSerializer.overlapsb attrs none) = true ↔
    ∃ s ∈ existing, s.doctor_id = attrs.doctor_id ∧ s.weekday = attrs.weekday
      ∧ s.start_time < attrs.end_time ∧ attrs.start_time < s.end_time := by
  simp [List.any_eq_true, TimeSlotSerializer.overlapsb, and_assoc]

/-- Claim C5. A submitted weekly slot is rejected when its start is at or
after its end; otherwise it is rejected with the overlap conflict exactly
when some existing slot of the same doctor and weekday satisfies
existing.start_time < new.end_time and existing.end_time >
new.start_time, and accepted otherwise. -/
theorem claim_C5 :
    ∀ (existing : List TimeSlot) (attrs : TimeSlotAttrs),
    (attrs.end_time ≤ attrs.start_time →
      TimeSlotSerializer.validate existing attrs none = .error .invalidRange)
    ∧ (attrs.start_time < attrs.end_time →
        ((∃ s ∈ existing, s.doctor_id = attrs.doctor_id
            ∧ s.weekday = attrs.weekday
            ∧ s.start_time < attrs.end_time ∧ attrs.start_time < s.end_time) →
          TimeSlotSerializer.validate existing attrs none = .error .overlapConflict)
        ∧ ((¬ ∃ s ∈ existing, s.doctor_id = attrs.doctor_id
            ∧ s.weekday = attrs.weekday
            ∧ s.start_time < attrs.end_time ∧ attrs.start_time < s.end_time) →
          TimeSlotSerializer.validate existing attrs none = .ok attrs)) := by
  intro existing attrs
  constructor
  · intro h
    unfold TimeSlotSerializer.validate
    rw [if_pos h]
  · intro hlt
    constructor
    · intro hex
      unfold TimeSlotSerializer.validate
      rw [if_neg (not_le.mpr hlt),
          if_pos ((timeSlot_any_overlap_iff existing attrs).mpr hex)]
    · intro hnex
      unfold TimeSlotSerializer.validate
      rw [if_neg (not_le.mpr hlt), if_neg]
      intro hany
      exact hnex ((timeSlot_any_overlap_iff existing attrs).mp hany)

/-- One existing slot 09:00 to 10:00 for the C5 witness. -/
def c5Existing : List TimeSlot :=
  [{ id := 11, doctor_id := 2, weekday := 3, start_time := 540, end_time := 600,
     is_available := true }]

/-- A degenerate submission whose start equals its end. -/
def c5Bad : TimeSlotAttrs :=
  { doctor_id := 2, weekday := 3, start_time := 600, end_time := 600 }

/-- A submission 09:30 to 10:30 overlapping the existing slot. -/
def c5Overlapping : TimeSlotAttrs :=
  { doctor_id := 2, weekday := 3, start_time := 570, end_time := 630 }

/-- The back-to-back submission 10:00 to 11:00. -/
def c5BackToBack : TimeSlotAttrs :=
  { doctor_id := 2, weekday := 3, start_time := 600, end_time := 660 }

/-- Witness for claim C5: the degenerate range is rejected, the
overlapping submission is rejected with the overlap conflict, and the
back-to-back submission 10:00 to 11:00 after 09:00 to 10:00 is accepted. -/
theorem claim_C5_witness :
    TimeSlotSerializer.validate c5Existing c5Bad none = .error .invalidRange
    ∧ TimeSlotSerializer.validate c5Existing c5Overlapping none
        = .error .overlapConflict
    ∧ TimeSlotSerializer.validate c5Existing c5BackToBack none
        = .ok c5BackToBack :=
  ⟨(claim_C5 c5Existing c5Bad).1 (by decide),
   ((claim_C5 c5Existing c5Overlapping).2 (by decide)).1 (by decide),
   ((claim_C5 c5Existing c5BackToBack).2 (by decide)).2 (by decide)⟩

/-- Claim C6. The field-level time check rejects with
OutsideBusinessHours exactly when the submitted time is strictly before
09:00 or strictly after 17:00, and both bounds themselves pass. The
check reads nothing but the submitted time, so availability cannot
influence it. -/
theorem claim_C6 :
    ∀ t : TimeOfDay,
    (AppointmentSerializer.validate_appointment_time t
        = .error .outsideBusinessHours
      ↔ (t < businessOpen ∨ businessClose < t))
    ∧ AppointmentSerializer.validate_appointment_time businessOpen
        = .ok businessOpen
    ∧ AppointmentSerializer.validate_appointment_time businessClose
        = .ok businessClose := by
  intro t
  refine ⟨?_, rfl, rfl⟩
  by_cases h : t < businessOpen ∨ businessClose < t
  · have hb : (t < businessOpen || t > businessClose) = true := by
      simpa using h
    simp [AppointmentSerializer.validate_appointment_time, hb, h]
  · have hb : (t < businessOpen || t > businessClose) = false := by
      simpa using h
    simp [AppointmentSerializer.validate_appointment_time, hb, h]

/-- Witness for claim C6: 06:40 is rejected, 09:00 passes. -/
theorem claim_C6_witness :
    AppointmentSerializer.validate_appointment_time 400
      = .error .outsideBusinessHours
    ∧ AppointmentSerializer.validate_appointment_time businessOpen
      = .ok businessOpen :=
  ⟨(claim_C6 400).1.mpr (by decide), (claim_C6 540).2.1⟩

/-- Claim C7. A booking request that passes the whole validation pass
creates an appointment in status pending whose consultation_fee is the
fee on the user record of the doctor at creation time; the payload handed
to create carries no client-sent status or fee because both fields are
read only, so whatever the client requested is ignored. -/
theorem claim_C7 :
    ∀ (today : PyDate) (now : PyDate × TimeOfDay) (s : Store)
      (req r : AppointmentRequest) (newId : Nat),
    AppointmentSerializer.run_validation today now s none req = .ok r →
      (AppointmentSerializer.toValidatedData r).status = none
      ∧ (AppointmentSerializer.toValidatedData r).consultation_fee = none
      ∧ (AppointmentSerializer.create (AppointmentSerializer.toValidatedData r)
          newId).status = "pending"
      ∧ (AppointmentSerializer.create (AppointmentSerializer.toValidatedData r)
          newId).consultation_fee = some r.doctor.user.consultation_fee := by
  intro today now s req r newId _
  exact ⟨rfl, rfl, rfl, rfl⟩

/-- The C7 store: the slot of the running scenario and no appointments. -/
def c7Store : Store := { timeSlots := [c1Slot], appointments := [] }

/-- A C7 request that tries to smuggle in a status and a fee of its own. -/
def c7Request : AppointmentRequest :=
  { patient_id := 8, doctor := c1Doctor, appointment_date := ⟨1⟩,
    appointment_time := 600, notes := "checkup",
    requested_status := some "confirmed",
    requested_consultation_fee := some 1 }

/-- Witness for claim C7: the request validates against the empty store
and the created appointment is pending with the fee of the doctor, not
the requested one. -/
theorem claim_C7_witness :
    (AppointmentSerializer.create
        (AppointmentSerializer.toValidatedData c7Request) 2).status = "pending"
    ∧ (AppointmentSerializer.create
        (AppointmentSerializer.toValidatedData c7Request) 2).consultation_fee
      = some c7Request.doctor.user.consultation_fee :=
  ⟨(claim_C7 ⟨1⟩ (⟨1⟩, 0) c7Store c7Request c7Request 2 rfl).2.2.1,
   (claim_C7 ⟨1⟩ (⟨1⟩, 0) c7Store c7Request c7Request 2 rfl).2.2.2⟩

/-- Claim C8. An update of a completed or cancelled appointment is
rejected with ImmutableTerminalState whatever the change set, and the
instance left behind is unmodified; an update of a non-terminal
appointment whose change set names a different doctor is rejected with
DoctorReassignmentForbidden whatever the other changes, again leaving
the instance unmodified. -/
theorem claim_C8 :
    ∀ (inst : Appointment) (vd : AppointmentSerializer.UpdateData),
    ((inst.status = "completed" ∨ inst.status = "cancelled") →
      AppointmentSerializer.update inst vd = .error .immutableTerminalState
      ∧ AppointmentSerializer.updateResulting inst vd = inst)
    ∧ (inst.status ≠ "completed" → inst.status ≠ "cancelled" →
       ∀ d, vd.doctor = some d → d.id ≠ inst.doctor_id →
        AppointmentSerializer.update inst vd = .error .doctorReassignmentForbidden
        ∧ AppointmentSerializer.updateResulting inst vd = inst) := by
  intro inst vd
  constructor
  · intro h
    have hc : (inst.status == "completed" || inst.status == "cancelled") = true := by
      rcases h with h | h <;> simp [h]
    have hu : AppointmentSerializer.update inst vd
        = .error .immutableTerminalState := by
      unfold AppointmentSerializer.update
      rw [if_pos hc]
    exact ⟨hu, by unfold AppointmentSerializer.updateResulting; rw [hu]⟩
  · intro h1 h2 d hd hne
    have hc : (inst.status == "completed" || inst.status == "cancelled") = false := by
      simp [h1, h2]
    have hu : AppointmentSerializer.update inst vd
        = .error .doctorReassignmentForbidden := by
      unfold AppointmentSerializer.update
      rw [if_neg (by simp [hc]), hd]
      dsimp only
      rw [if_pos (by simpa using hne)]
    exact ⟨hu, by unfold AppointmentSerializer.updateResulting; rw [hu]⟩

/-- A completed appointment fixture for the C8 witness. -/
def c8Completed : Appointment :=
  { id := 5, patient_id := 7, doctor_id := 1, appointment_date := ⟨1⟩,
    appointment_time := 600, notes := "", status := "completed",
    consultation_fee := some 50000 }

/-- A pending appointment fixture for the C8 witness. -/
def c8Pending : Appointment := { c8Completed with id := 6, status := "pending" }

/-- A change set moving the appointment to 11:00. -/
def c8TimeChange : AppointmentSerializer.UpdateData :=
  { doctor := none, appointment_date := none, appointment_time := some 660,
    notes := none }

/-- A second doctor fixture the C8 witness tries to reassign to. -/
def c8OtherDoctor : DoctorProfile :=
  { id := 2,
    user := { id := 11, user_type := "DOCTOR", consultation_fee := 30000,
              is_active := true },
    is_available := true }

/-- A change set naming a different doctor together with a time change. -/
def c8DoctorChange : AppointmentSerializer.UpdateData :=
  { doctor := some c8OtherDoctor, appointment_date := none,
    appointment_time := some 660, notes := none }

/-- Witness for claim C8: the completed fixture rejects the time change
and stays unmodified, and the pending fixture rejects the doctor
reassignment. -/
theorem claim_C8_witness :
    (AppointmentSerializer.update c8Completed c8TimeChange
        = .error .immutableTerminalState
      ∧ AppointmentSerializer.updateResulting c8Completed c8TimeChange
        = c8Completed)
    ∧ AppointmentSerializer.update c8Pending c8DoctorChange
        = .error .doctorReassignmentForbidden :=
  ⟨(claim_C8 c8Completed c8TimeChange).1 (Or.inl rfl),
   ((claim_C8 c8Pending c8DoctorChange).2 (by decide) (by decide)
      c8OtherDoctor rfl (by decide)).1⟩

/-- Claim C9. One validation pass is a pure function of the request and
the store it reads: the pass hands back the store unchanged (the source
issues only read queries, serializers.py:321-376), a second pass over
the store the first one left behind returns the identical decision, and
a failing pass returns the error together with the untouched store. -/
theorem claim_C9 :
    ∀ (today : PyDate) (now : PyDate × TimeOfDay) (s : Store)
      (req : AppointmentRequest),
    (validationStep today now s req).2 = s
    ∧ (validationStep today now (validationStep today now s req).2 req).1
        = (validationStep today now s req).1
    ∧ ∀ e, (validationStep today now s req).1 = .error e →
        validationStep today now s req = (.error e, s) := by
  intro today now s req
  refine ⟨rfl, rfl, ?_⟩
  intro e h
  have h2 : AppointmentSerializer.run_validation today now s none req = .error e := h
  unfold validationStep
  rw [h2]

/-- The C9 request: the slot of the running scenario exists, but the
requested time 06:40 is outside business hours, so validation fails. -/
def c9Request : AppointmentRequest :=
  { patient_id := 8, doctor := c1Doctor, appointment_date := ⟨1⟩,
    appointment_time := 400, notes := "", requested_status := none,
    requested_consultation_fee := none }

/-- The C9 store: the slot only. -/
def c9Store : Store := { timeSlots := [c1Slot], appointments := [] }

/-- Witness for claim C9: the failing pass returns the rejection together
with the untouched store. -/
theorem claim_C9_witness :
    validationStep ⟨1⟩ (⟨1⟩, 0) c9Store c9Request
      = (.error .outsideBusinessHours, c9Store) :=
  (claim_C9 ⟨1⟩ (⟨1⟩, 0) c9Store c9Request).2.2 .outsideBusinessHours rfl

/-- Reformatting the phone leaves the activation flag alone: helper for
claim C10. -/
theorem formatPhone_is_active (a : UserAttrs) :
    (UserSerializer.formatPhone a).is_active = a.is_active := by
  unfold UserSerializer.formatPhone
  cases a.phone <;> rfl

/-- Claim C10. Every payload UserSerializer.validate accepts carries
is_active true: the method assigns it unconditionally before any check
(serializers.py:121) and no later step touches it, so no request through
this serializer can set a user inactive. The method runs on the create
and on the update path alike. -/
theorem claim_C10 :
    ∀ (attrs out : UserAttrs),
    UserSerializer.validate attrs = .ok out → out.is_active = true := by
  intro attrs out h
  unfold UserSerializer.validate UserSerializer.checksAfterActive at h
  split at h
  · exact absurd h (by simp)
  · split at h
    · split at h
      · exact absurd h (by simp)
      · simp only [Except.ok.injEq] at h
        rw [← h, formatPhone_is_active]
    · simp only [Except.ok.injEq] at h
      rw [← h, formatPhone_is_active]

/-- A user submission that tries to come in inactive, with a strong
password and a local phone number. -/
def c10In : UserAttrs :=
  { user_type := "PATIENT", license_number := none, experience_years := none,
    consultation_fee := none, password := some "Aa1!aaaa",
    phone := some "01712345678", is_active := false }

/-- The accepted payload of the C10 witness: activation forced on, phone
reformatted with the country code. -/
def c10Out : UserAttrs :=
  { user_type := "PATIENT", license_number := none, experience_years := none,
    consultation_fee := none, password := some "Aa1!aaaa",
    phone := some "+8801712345678", is_active := true }

/-- Witness for claim C10: the inactive submission is accepted with
is_active forced to true. -/
theorem claim_C10_witness :
    UserSerializer.validate c10In = .ok c10Out ∧ c10Out.is_active = true :=
  ⟨by rfl, claim_C10 c10In c10Out (by rfl)⟩

end AppointmentBooking
